import Mathlib

/-!
Verification of the AI business assistant (`src/app.py`) against its
natural-language specification.

The embedding models, in order of appearance in the source:
* the Python regex scan `re.findall(r"[-\d]*\.?\s*([A-Z][A-Za-z0-9\s]+)", summary)`
  together with the strip-and-filter comprehension over its results
  (lines 146-147) and the display logic (lines 149-154);
* the prompt f-string of `query_agent` (lines 41-56);
* the provider dispatch of `query_agent` (lines 57-70);
* the search call at the head of `query_agent` (line 39), with fallibility
  made explicit through `Except`;
* the mind-map construction (lines 132-142) and the timeline figure
  (lines 111-128) as explicit structures;
* the root-node label `startup_input.split(" ")[0] + " Idea"` (line 135).

Strings are modelled as `List Char` where character-level scanning is
needed, and as `String` elsewhere.
-/

namespace App

/-! ### Character classes of the regex `[-\d]*\.?\s*([A-Z][A-Za-z0-9\s]+)`

Python `\d` on ASCII input is `0-9`; `\s` is space, tab, newline, carriage
return, vertical tab and form feed. `[A-Z]` and the name-body class
`[A-Za-z0-9\s]` are as written. -/

def isHyphenDigit (c : Char) : Bool :=
  c = '-' || ('0' ≤ c && c ≤ '9')

def isPySpace (c : Char) : Bool :=
  c = ' ' || c = '\t' || c = '\n' || c = '\r' || c = '\x0B' || c = '\x0C'

def isUpperAZ (c : Char) : Bool :=
  'A' ≤ c && c ≤ 'Z'

def isNameChar (c : Char) : Bool :=
  ('A' ≤ c && c ≤ 'Z') || ('a' ≤ c && c ≤ 'z') || ('0' ≤ c && c ≤ '9') || isPySpace c

/-- The optional literal dot `\.?` of the regex prefix. -/
def skipDot : List Char → List Char
  | '.' :: t => t
  | l => l

/-- The prefix `[-\d]*\.?\s*` of the regex: consume the run of
hyphens/digits, an optional dot, then the run of whitespace. -/
def regexPrefixSkip (s : List Char) : List Char :=
  (skipDot (s.dropWhile isHyphenDigit)).dropWhile isPySpace

/-- One anchored match attempt of `[-\d]*\.?\s*([A-Z][A-Za-z0-9\s]+)` at the
head of `s`. The four character classes involved are pairwise disjoint, so
Python's greedy backtracking matcher is equivalent to this maximal-munch
scan: after the prefix, require an uppercase letter opening the captured
group, which extends over the maximal run of `[A-Za-z0-9\s]`. Returns the
captured group together with the remainder of the input after the whole
match, or `none` when no match starts here. -/
def matchAt (s : List Char) : Option (List Char × List Char) :=
  match regexPrefixSkip s with
  | [] => none
  | c :: t =>
    if isUpperAZ c then
      some (c :: t.takeWhile isNameChar, t.dropWhile isNameChar)
    else none

/-- `re.findall` scanning: try an anchored match at every position from the
left; on success record the captured group and resume after the whole
match, on failure advance one character. The fuel argument is an upper
bound on the number of scan steps; every step consumes at least one
character, so `s.length` fuel (see `findallNames`) is always enough, which
`findallAux_fuel` below makes precise. -/
def findallAux : Nat → List Char → List (List Char)
  | 0, _ => []
  | _ + 1, [] => []
  | fuel + 1, c :: t =>
    match matchAt (c :: t) with
    | some (g, rest) => g :: findallAux fuel rest
    | none => findallAux fuel t

def findallNames (s : List Char) : List (List Char) :=
  findallAux s.length s

/-- Python `str.strip()`: remove leading and trailing whitespace. -/
def pyStrip (l : List Char) : List Char :=
  ((l.dropWhile isPySpace).reverse.dropWhile isPySpace).reverse

/-- Lines 146-147: the regex scan followed by
`[n.strip() for n in name_suggestions if len(n.strip()) > 2]`. -/
def extractNames (summary : List Char) : List (List Char) :=
  ((findallNames summary).map pyStrip).filter (fun n => 2 < n.length)

/-- Line 154: the informational message shown when no candidate was found. -/
def infoMessage : String :=
  "No name suggestions found in the summary. AI may need stricter formatting."

/-- What the name-suggestion section displays. -/
inductive NameDisplay where
  | suggestions (names : List (List Char))
  | info (message : String)
  deriving DecidableEq

/-- Lines 149-154: if any names were extracted, show the first 5
(`name_suggestions[:5]`); otherwise show the informational note. -/
def renderNames (summary : List Char) : NameDisplay :=
  let ns := extractNames summary
  if ns.isEmpty then NameDisplay.info infoMessage
  else NameDisplay.suggestions (ns.take 5)

/-! ### Adequacy of the fuel bound -/

theorem length_dropWhile_le (p : Char → Bool) (l : List Char) :
    (l.dropWhile p).length ≤ l.length :=
  (List.dropWhile_sublist p).length_le

theorem skipDot_length_le (l : List Char) : (skipDot l).length ≤ l.length := by
  unfold skipDot
  split <;> simp

theorem regexPrefixSkip_length_le (s : List Char) :
    (regexPrefixSkip s).length ≤ s.length :=
  le_trans (length_dropWhile_le _ _)
    (le_trans (skipDot_length_le _) (length_dropWhile_le _ _))

theorem matchAt_rest_lt {s g rest : List Char} (h : matchAt s = some (g, rest)) :
    rest.length < s.length := by
  have hlen := regexPrefixSkip_length_le s
  cases hs3 : regexPrefixSkip s with
  | nil => simp [matchAt, hs3] at h
  | cons c t =>
    rw [hs3] at hlen
    by_cases hc : isUpperAZ c
    · simp [matchAt, hs3, hc] at h
      have hr : rest.length ≤ t.length := by
        rw [← h.2]
        exact length_dropWhile_le _ _
      simp only [List.length_cons] at hlen
      omega
    · simp [matchAt, hs3, hc] at h

theorem findallAux_fuel (fuel : Nat) : ∀ s : List Char, s.length ≤ fuel →
    findallAux fuel s = findallAux s.length s := by
  induction fuel using Nat.strong_induction_on with
  | _ fuel ih =>
    intro s hs
    cases fuel with
    | zero =>
      have hnil : s = [] := List.length_eq_zero.mp (Nat.le_zero.mp hs)
      subst hnil
      rfl
    | succ n =>
      cases s with
      | nil => cases n <;> rfl
      | cons c t =>
        simp only [List.length_cons] at hs ⊢
        simp only [findallAux]
        cases hm : matchAt (c :: t) with
        | some gr =>
          obtain ⟨g, rest⟩ := gr
          have hlt : rest.length < t.length + 1 := by
            have := matchAt_rest_lt hm
            simpa using this
          dsimp only
          rw [ih n (by omega) rest (by omega),
              ih t.length (by omega) rest (by omega)]
        | none =>
          dsimp only
          rw [ih n (by omega) t (by omega),
              ih t.length (by omega) t le_rfl]

/-! ### The prompt f-string of `query_agent` (lines 41-56)

The template is split exactly at the two interpolation points
`{startup_input}` and `{search_results}`; the three constant pieces below
are byte-for-byte the constant parts of the f-string, including the
leading newline after the opening quotes and the trailing space after
"consultant.". -/

def promptHeader : String :=
  "\nYou are a startup business consultant. \nInput: "

def promptSearchLabel : String :=
  "\nUse search results: "

def promptInstructions : String :=
  "\n\nOutput a clean, actionable, short summary for a non-tech person including:\n- Idea\n- Market overview\n- Budget breakdown\n- Step-by-step action plan with registration & setup\n- 4-week launch timeline\n- Marketing plan with ✅ good / ⚠️ less effective\n- Feasibility score & suggested KPIs\n- 3-5 unique startup name suggestions (bullet points only)\nLimit each section to 1-3 sentences or simple table format.\n"

/-- Lines 41-56: the prompt is the template with `startup_input` and
`search_results` interpolated verbatim (no escaping or sanitization). -/
def buildPrompt (idea searchText : List Char) : List Char :=
  promptHeader.toList ++ idea ++ promptSearchLabel.toList ++ searchText
    ++ promptInstructions.toList

/-! ### Provider dispatch (lines 57-70) -/

/-- Python `str.lower()` on the ASCII provider strings involved:
character-wise lowercasing. -/
def pyLower (l : List Char) : List Char := l.map Char.toLower

/-- Line 66: the fixed system instruction of the alternate (Groq) branch. -/
def sysInstruction : String := "You are a helpful AI assistant."

/-- Lines 57-70: `provider = provider.lower()`, then the two-way branch.
The two backends are passed in as functions: `geminiSend` models sending
one message in a fresh chat session; `groqInvoke` models `groq_llm.invoke`
on an explicit role-tagged message list. -/
def queryAgentDispatch (prompt provider : List Char)
    (geminiSend : List Char → List Char)
    (groqInvoke : List (String × List Char) → List Char) : List Char :=
  let p := pyLower provider
  if p = ("gemini").toList then
    geminiSend prompt
  else
    groqInvoke [("system", sysInstruction.toList), ("human", prompt)]

/-- Lines 38-70: `query_agent`. The first statement is the search call
(line 39); its fallibility is made explicit by letting `search` return an
`Except`. A raised exception in Python propagates to the caller, modelled
by the `Except.error` short-circuit: nothing after the search runs. -/
def queryAgent (search : List Char → Except String (List Char))
    (startupInput provider : List Char)
    (geminiSend : List Char → List Char)
    (groqInvoke : List (String × List Char) → List Char) :
    Except String (List Char) :=
  match search startupInput with
  | Except.error e => Except.error e
  | Except.ok results =>
      Except.ok
        (queryAgentDispatch (buildPrompt startupInput results)
          provider geminiSend groqInvoke)

/-! ### The mind-map root label (line 135)

Python's `startup_input.split(" ")` splits on each single space character,
keeping empty fragments, and always returns a non-empty list (the split of
`""` is `[""]`); element `[0]` is taken. -/

/-- Python `str.split(" ")`: split on every single space, keeping empty
fragments. -/
def splitOnSpace : List Char → List (List Char)
  | [] => [[]]
  | c :: t =>
    if c = ' ' then
      [] :: splitOnSpace t
    else
      match splitOnSpace t with
      | [] => [[c]]
      | h :: r => (c :: h) :: r

/-- Line 135: `startup_input.split(" ")[0] + " Idea"`. -/
def rootLabel (startupInput : List Char) : List Char :=
  (splitOnSpace startupInput).headD [] ++ (" Idea").toList

/-! ### The mind map (lines 132-142) -/

/-- The directed graph accumulated by the `Digraph` calls: `node(id, label)`
and `edge(tail, head)` in order of execution. -/
structure DotGraph where
  nodes : List (String × List Char)
  edges : List (String × String)
  deriving DecidableEq

/-- Line 136: the fixed child task labels. -/
def mindMapTasks : List (List Char) :=
  ["Register".toList, "Kitchen Setup".toList, "Source Ingredients".toList,
   "Marketing".toList, "Launch".toList]

/-- Lines 134-139: root node `A` first, then for `i, task` in
`enumerate(tasks, start=1)` a node `Bi` and an edge `A -> Bi`. -/
def mindMapGraph (startupInput : List Char) : DotGraph :=
  ((List.range mindMapTasks.length).zip mindMapTasks).foldl
    (fun g p =>
      { nodes := g.nodes ++ [("B" ++ toString (p.1 + 1), p.2)],
        edges := g.edges ++ [("A", "B" ++ toString (p.1 + 1))] })
    { nodes := [("A", rootLabel startupInput)], edges := [] }

/-- Lines 132 and 141-142: the mind map is built only when the Graphviz
dependency imported successfully; otherwise the section is skipped with a
warning and nothing is raised. -/
def renderMindMap (graphvizInstalled : Bool) (startupInput : List Char) :
    Option DotGraph :=
  if graphvizInstalled then some (mindMapGraph startupInput) else none

/-! ### The timeline figure (lines 111-128) -/

/-- The arguments of the `px.timeline` call plus the subsequent
`fig.update_yaxes(autorange="reversed")`. -/
structure TimelineChart where
  tasks : List String
  xStart : List Int
  xEnd : List Int
  yAxisReversed : Bool
  deriving DecidableEq

/-- Lines 113-118: the fixed task column of `timeline_data`. -/
def timelineTasks : List String :=
  ["Register + source ingredients",
   "Set up kitchen + hire helpers",
   "Test delivery + small batch launch",
   "Full launch + social media marketing"]

/-- Lines 120-128: `px.timeline(..., x_start=[0,7,14,21], x_end=[7,14,21,28],
y="Tasks", ...)` followed by `fig.update_yaxes(autorange="reversed")`. -/
def launchTimeline : TimelineChart :=
  { tasks := timelineTasks,
    xStart := [0, 7, 14, 21],
    xEnd := [7, 14, 21, 28],
    yAxisReversed := true }

/-- The rows of the chart: each task paired positionally with its
`[start, end)` span, in input order (top-to-bottom once the y-axis is
reversed). -/
def timelineRows (c : TimelineChart) : List (String × Int × Int) :=
  c.tasks.zip (c.xStart.zip c.xEnd)

/-- Stated from the spec's words for comparison with `rootLabel` (claim
C8): the first whitespace-delimited token of the description — leading
whitespace dropped, then everything up to the next whitespace character —
followed by " Idea". -/
def specWhitespaceRootLabel (startupInput : List Char) : List Char :=
  (startupInput.dropWhile isPySpace).takeWhile (fun c => !isPySpace c)
    ++ (" Idea").toList

/-! ### Helper lemmas -/

theorem skipDot_subset (l : List Char) : ∀ c ∈ skipDot l, c ∈ l := by
  intro c hc
  unfold skipDot at hc
  split at hc
  · exact List.mem_cons_of_mem _ hc
  · exact hc

theorem regexPrefixSkip_subset (s : List Char) :
    ∀ c ∈ regexPrefixSkip s, c ∈ s := by
  intro c hc
  unfold regexPrefixSkip at hc
  exact List.dropWhile_subset _
    (skipDot_subset _ c (List.dropWhile_subset _ hc))

theorem matchAt_eq_none_of_no_upper {s : List Char}
    (h : ∀ c ∈ s, isUpperAZ c = false) : matchAt s = none := by
  cases hs3 : regexPrefixSkip s with
  | nil => simp [matchAt, hs3]
  | cons c t =>
    have hc : c ∈ s := by
      apply regexPrefixSkip_subset s c
      rw [hs3]
      exact List.mem_cons_self c t
    simp [matchAt, hs3, h c hc]

theorem findallNames_eq_nil {s : List Char}
    (h : ∀ c ∈ s, isUpperAZ c = false) : findallNames s = [] := by
  induction s with
  | nil => rfl
  | cons c t ih =>
    have hm : matchAt (c :: t) = none := matchAt_eq_none_of_no_upper h
    have ht := ih (fun x hx => h x (List.mem_cons_of_mem _ hx))
    unfold findallNames at ht ⊢
    simp only [List.length_cons, findallAux, hm]
    exact ht

theorem splitOnSpace_ne_nil (l : List Char) : splitOnSpace l ≠ [] := by
  cases l with
  | nil => simp [splitOnSpace]
  | cons c t =>
    unfold splitOnSpace
    by_cases hc : c = ' '
    · simp [hc]
    · simp only [hc, if_false]
      split <;> simp

theorem splitOnSpace_head (l : List Char) :
    (splitOnSpace l).headD [] = l.takeWhile (fun c => c != ' ') := by
  induction l with
  | nil => rfl
  | cons c t ih =>
    by_cases hc : c = ' '
    · subst hc
      simp [splitOnSpace, List.takeWhile_cons]
    · cases hs : splitOnSpace t with
      | nil => exact absurd hs (splitOnSpace_ne_nil t)
      | cons h r =>
        rw [hs] at ih
        simp only [List.headD_cons] at ih
        simp [splitOnSpace, hc, hs, List.takeWhile_cons, ih]

/-- The constant tail of the prompt template is an infix of every built
prompt, so anything inside it is too. -/
theorem infix_buildPrompt_of_infix_instructions {l : List Char}
    (h : l <:+: promptInstructions.toList) (idea searchText : List Char) :
    l <:+: buildPrompt idea searchText := by
  apply h.trans
  refine ⟨promptHeader.toList ++ idea ++ promptSearchLabel.toList ++ searchText,
    [], ?_⟩
  simp [buildPrompt]

/-! ### Claim theorems -/

/-- C1 (counterexample): on the worked example
`"1. VeganBites\n2. GreenSnack Co\n- plain text"` the extraction does NOT
return `["VeganBites", "GreenSnack Co"]`: the name-body class
`[A-Za-z0-9\s]` of the regex includes the newline, so the first captured
group runs past the line break and swallows the following digit. -/
theorem extractNames_example_ne_claimed :
    extractNames (("1. VeganBites\n2. GreenSnack Co\n- plain text").toList) ≠
      [("VeganBites").toList, ("GreenSnack Co").toList] := by
  decide

/-- C1 (amended): on the worked example the extraction returns exactly
`["VeganBites\n2", "GreenSnack Co"]`, in that order: the first captured
group extends across the newline up to the `.` after `2`, and interior
whitespace is not removed by the trailing `strip`; the second group's
trailing newline is stripped. Lowercase-starting and length-≤2 fragments
are still excluded. -/
theorem extractNames_example_eval :
    extractNames (("1. VeganBites\n2. GreenSnack Co\n- plain text").toList) =
      [("VeganBites\n2").toList, ("GreenSnack Co").toList] := by
  rfl

/-- C2 (counterexample): the provider string `"GEMINI"` is not equal to
`"gemini"`, yet the dispatch takes the Gemini branch, not the
alternate-provider branch, because the provider is lowercased before the
comparison. -/
theorem dispatch_upper_gemini_not_alternate :
    ("GEMINI").toList ≠ ("gemini").toList ∧
    queryAgentDispatch (("p").toList) (("GEMINI").toList)
        (fun _ => ("from gemini").toList) (fun _ => ("from groq").toList) =
      ("from gemini").toList ∧
    ("from gemini").toList ≠ ("from groq").toList := by
  exact ⟨by decide, by rfl, by decide⟩

/-- C2 (amended): for every provider string whose LOWERCASING differs from
`"gemini"`, the dispatch takes the alternate-provider branch: it sends
exactly the fixed system instruction followed by the prompt as the user
turn to the alternate backend and returns that backend's content; only
values lowercasing to `"gemini"` select the Gemini backend. -/
theorem dispatch_alternate_branch (prompt provider : List Char)
    (geminiSend : List Char → List Char)
    (groqInvoke : List (String × List Char) → List Char)
    (h : pyLower provider ≠ ("gemini").toList) :
    queryAgentDispatch prompt provider geminiSend groqInvoke =
      groqInvoke [("system", sysInstruction.toList), ("human", prompt)] := by
  simp only [queryAgentDispatch]
  rw [if_neg h]

/-- Witness for `dispatch_alternate_branch` at provider `"groq"`. -/
theorem dispatch_alternate_branch_witness :
    queryAgentDispatch (("p").toList) (("groq").toList)
        (fun _ => ("G").toList) (fun _ => ("Q").toList) = ("Q").toList :=
  dispatch_alternate_branch (("p").toList) (("groq").toList)
    (fun _ => ("G").toList) (fun _ => ("Q").toList) (by decide)

/-- C3 (confirmed): provider matching is case-insensitive — the provider is
lowercased before the comparison, so every provider string whose
lowercasing equals `"gemini"` takes the Gemini branch. -/
theorem dispatch_gemini_case_insensitive (prompt provider : List Char)
    (geminiSend : List Char → List Char)
    (groqInvoke : List (String × List Char) → List Char)
    (h : pyLower provider = ("gemini").toList) :
    queryAgentDispatch prompt provider geminiSend groqInvoke =
      geminiSend prompt := by
  simp only [queryAgentDispatch]
  rw [if_pos h]

/-- Witness for `dispatch_gemini_case_insensitive` at provider `"GEMINI"`. -/
theorem dispatch_gemini_case_insensitive_witness :
    queryAgentDispatch (("p").toList) (("GEMINI").toList)
        (fun _ => ("G").toList) (fun _ => ("Q").toList) = ("G").toList :=
  dispatch_gemini_case_insensitive (("p").toList) (("GEMINI").toList)
    (fun _ => ("G").toList) (fun _ => ("Q").toList) (by decide)

set_option maxRecDepth 100000 in
/-- C4 (confirmed): for every non-empty idea and non-empty search text, the
built prompt contains both inputs verbatim as substrings (no escaping or
sanitization), and contains all eight required section labels as they
appear in the template — the spec's names Idea, Market overview, Budget
breakdown, Action plan, 4-week timeline, Marketing plan, Feasibility
score/KPIs and Name suggestions correspond, in order, to the eight
template lines listed below. -/
theorem buildPrompt_contains_inputs_and_sections (idea searchText : List Char)
    (hi : idea ≠ []) (hs : searchText ≠ []) :
    (idea <:+: buildPrompt idea searchText) ∧
    (searchText <:+: buildPrompt idea searchText) ∧
    (("- Idea").toList <:+: buildPrompt idea searchText) ∧
    (("- Market overview").toList <:+: buildPrompt idea searchText) ∧
    (("- Budget breakdown").toList <:+: buildPrompt idea searchText) ∧
    (("- Step-by-step action plan with registration & setup").toList <:+:
      buildPrompt idea searchText) ∧
    (("- 4-week launch timeline").toList <:+: buildPrompt idea searchText) ∧
    (("- Marketing plan with ✅ good / ⚠️ less effective").toList <:+:
      buildPrompt idea searchText) ∧
    (("- Feasibility score & suggested KPIs").toList <:+:
      buildPrompt idea searchText) ∧
    (("- 3-5 unique startup name suggestions (bullet points only)").toList <:+:
      buildPrompt idea searchText) := by
  refine ⟨?_, ?_, ?_, ?_, ?_, ?_, ?_, ?_, ?_, ?_⟩
  · exact ⟨promptHeader.toList,
      promptSearchLabel.toList ++ searchText ++ promptInstructions.toList,
      by simp [buildPrompt]⟩
  · exact ⟨promptHeader.toList ++ idea ++ promptSearchLabel.toList,
      promptInstructions.toList, by simp [buildPrompt]⟩
  all_goals exact infix_buildPrompt_of_infix_instructions (by decide) idea searchText

/-- Witness for `buildPrompt_contains_inputs_and_sections` at idea `"i"`,
search text `"s"`. -/
theorem buildPrompt_contains_inputs_and_sections_witness :
    ("i").toList <:+: buildPrompt (("i").toList) (("s").toList) :=
  (buildPrompt_contains_inputs_and_sections (("i").toList) (("s").toList)
    (by decide) (by decide)).1

/-- C5 (confirmed): if the search call fails, the whole generation request
aborts — `query_agent` propagates the error unchanged, and the result does
not depend on either text-generation backend (so no backend is invoked and
no partial result is produced). -/
theorem queryAgent_search_error_aborts
    (search : List Char → Except String (List Char))
    (input provider : List Char) (e : String)
    (geminiSend geminiSend' : List Char → List Char)
    (groqInvoke groqInvoke' : List (String × List Char) → List Char)
    (h : search input = Except.error e) :
    queryAgent search input provider geminiSend groqInvoke = Except.error e ∧
    queryAgent search input provider geminiSend groqInvoke =
      queryAgent search input provider geminiSend' groqInvoke' := by
  constructor <;> simp [queryAgent, h]

/-- Witness for `queryAgent_search_error_aborts` with a search that always
fails. -/
theorem queryAgent_search_error_aborts_witness :
    queryAgent (fun _ => Except.error "network down") (("idea").toList)
        (("gemini").toList) (fun _ => []) (fun _ => []) =
      Except.error "network down" :=
  (queryAgent_search_error_aborts (fun _ => Except.error "network down")
    (("idea").toList) (("gemini").toList) "network down"
    (fun _ => []) (fun _ => []) (fun _ => []) (fun _ => []) rfl).1

/-- C6 (confirmed): whatever the summary, the name-suggestion section never
presents more than 5 entries — the display slices the extracted list with
`[:5]`. -/
theorem renderNames_at_most_five (s : List Char) (names : List (List Char))
    (h : renderNames s = NameDisplay.suggestions names) :
    names.length ≤ 5 := by
  unfold renderNames at h
  by_cases he : (extractNames s).isEmpty
  · simp [he] at h
  · simp only [he, Bool.false_eq_true, if_false,
      NameDisplay.suggestions.injEq] at h
    subst h
    exact List.length_take_le _ _

/-- Witness for `renderNames_at_most_five` on the summary `"1. Alpha"`. -/
theorem renderNames_at_most_five_witness :
    ([("Alpha").toList] : List (List Char)).length ≤ 5 :=
  renderNames_at_most_five (("1. Alpha").toList) [("Alpha").toList] (by rfl)

/-- C7 (confirmed): a summary with no uppercase letter admits no match of
the capitalized-phrase pattern, so the extraction returns the empty
sequence and the section is replaced, non-fatally, by the informational
message. -/
theorem no_upper_extraction_empty_info (s : List Char)
    (h : ∀ c ∈ s, isUpperAZ c = false) :
    findallNames s = [] ∧ extractNames s = [] ∧
      renderNames s = NameDisplay.info infoMessage := by
  have h1 : findallNames s = [] := findallNames_eq_nil h
  have h2 : extractNames s = [] := by simp [extractNames, h1]
  exact ⟨h1, h2, by simp [renderNames, h2]⟩

/-- Witness for `no_upper_extraction_empty_info` on an all-lowercase
summary. -/
theorem no_upper_extraction_empty_info_witness :
    extractNames (("no capital letters 123.").toList) = [] ∧
      renderNames (("no capital letters 123.").toList) =
        NameDisplay.info infoMessage :=
  ⟨(no_upper_extraction_empty_info (("no capital letters 123.").toList)
      (by decide)).2.1,
   (no_upper_extraction_empty_info (("no capital letters 123.").toList)
      (by decide)).2.2⟩

/-- C8 (counterexample): the root label is NOT derived from the first
whitespace-delimited token for arbitrary whitespace: on a description
whose first blank is a tab, `split(" ")` does not cut at the tab, so the
code's label differs from the whitespace-token reading of the claim. -/
theorem rootLabel_tab_counterexample :
    rootLabel (("vegan\tsnack startup").toList) =
        ("vegan\tsnack Idea").toList ∧
    specWhitespaceRootLabel (("vegan\tsnack startup").toList) =
        ("vegan Idea").toList ∧
    rootLabel (("vegan\tsnack startup").toList) ≠
      specWhitespaceRootLabel (("vegan\tsnack startup").toList) := by
  exact ⟨by rfl, by rfl, by decide⟩

/-- C8 (amended): the root label equals the prefix of the description up to
(excluding) the first space character U+0020, followed by `" Idea"`; only
the space character delimits — tabs and newlines do not. -/
theorem rootLabel_space_split (d : List Char) :
    rootLabel d = d.takeWhile (fun c => c != ' ') ++ (" Idea").toList := by
  unfold rootLabel
  rw [splitOnSpace_head]

/-- C9 (confirmed): when the graph-rendering dependency is available the
mind map is always the same depth-1 star, independent of the summary: one
root node `A` (labelled from the description), exactly five children
`B1`-`B5` bearing the fixed task labels, and exactly one edge from the
root to each child; every edge leaves the root and enters a distinct
non-root child, so there is no further nesting and no cycle. -/
theorem mindMap_star (input : List Char) :
    renderMindMap true input = some (mindMapGraph input) ∧
    (mindMapGraph input).nodes =
      [("A", rootLabel input),
       ("B1", ("Register").toList), ("B2", ("Kitchen Setup").toList),
       ("B3", ("Source Ingredients").toList), ("B4", ("Marketing").toList),
       ("B5", ("Launch").toList)] ∧
    (mindMapGraph input).edges =
      [("A", "B1"), ("A", "B2"), ("A", "B3"), ("A", "B4"), ("A", "B5")] ∧
    (∀ e ∈ (mindMapGraph input).edges, e.1 = "A" ∧ e.2 ≠ "A") ∧
    ((mindMapGraph input).edges.map Prod.snd).Nodup := by
  have he : (mindMapGraph input).edges =
      [("A", "B1"), ("A", "B2"), ("A", "B3"), ("A", "B4"), ("A", "B5")] := rfl
  refine ⟨rfl, rfl, he, ?_, ?_⟩
  · rw [he]
    decide
  · rw [he]
    decide

/-- C10 (confirmed): the timeline chart pairs the four fixed tasks, in
input order (rendered top-to-bottom because the y-axis is reversed), with
the day spans [0,7), [7,14), [14,21), [21,28), in that order. -/
theorem timeline_rows_fixed :
    timelineRows launchTimeline =
      [("Register + source ingredients", ((0 : Int), (7 : Int))),
       ("Set up kitchen + hire helpers", (7, 14)),
       ("Test delivery + small batch launch", (14, 21)),
       ("Full launch + social media marketing", (21, 28))] ∧
    launchTimeline.yAxisReversed = true := by
  exact ⟨rfl, rfl⟩

end App
